import Mathlib

/-!
Verification of the PixBay project-management frontend and schema.

The development embeds, as Lean definitions:
* `fetchProjectInfo` and the render logic of the `ProjectInfo` React
  component (`src/apps/client/src/components/ProjectInfo.tsx`);
* `handleSubmit` of the `SprintFormModal` component (same file);
* the HTTP requests both components issue;
* the Prisma relational schema (tables, unique constraints, foreign keys,
  cascade deletes) found in the repository's schema file.

JavaScript truthiness on the string/number fields the code tests with
`||` and `!` is modelled explicitly: a `String` is falsy exactly when it
is `""`, an `Option` field is falsy when it is `none` or holds a falsy
value.
-/

/-- JS falsiness of an optional string value (`undefined`/`null`/`""`). -/
def strFalsy : Option String → Bool
  | none => true
  | some s => s == ""

/-- JS falsiness of an optional integer value (`undefined`/`null`/`0`). -/
def intFalsy : Option Int → Bool
  | none => true
  | some n => n == 0

/-! ## ProjectInfo component (`fetchProjectInfo` and render) -/

/-- The JSON body of a successful `GET api/projects/:id` response, as the
component reads it: the `status` and `progress` fields it post-processes,
and all remaining fields kept abstract as key/value pairs that the object
spread `{ ...response.data, ... }` copies verbatim. -/
structure ResponseData where
  status : Option String
  progress : Option Int
  rest : List (String × String)
deriving DecidableEq, Repr

/-- The `projectData` value built from a successful response:
`{ ...response.data, status: response.data.status || "active",
   progress: response.data.progress || 0 }`. -/
def applyProjectDefaults (d : ResponseData) : ResponseData :=
  { d with
    status := if strFalsy d.status then some "active" else d.status
    progress := if intFalsy d.progress then some 0 else d.progress }

/-- Outcome of the awaited `axios.get` call: success with a JSON body, an
axios error carrying an HTTP response (`err.response` present), or any
other failure (network error, non-axios exception). -/
inductive FetchOutcome where
  | success (data : ResponseData)
  | httpError (status : Nat) (statusText : String)
  | networkError
deriving DecidableEq, Repr

/-- Component state of `ProjectInfo`: the `project`, `error` and `loading`
`useState` hooks. -/
structure ProjectInfoState where
  project : Option ResponseData
  error : Option String
  loading : Bool
deriving DecidableEq, Repr

/-- Behaviour of `fetchProjectInfo` as a state transformer: given the `projectId` prop
and the outcome of the HTTP call, the component state after the call
completes (the `finally` block has set `loading` to `false`). -/
def fetchProjectInfo (projectId : Option String) (outcome : FetchOutcome)
    (st : ProjectInfoState) : ProjectInfoState :=
  if strFalsy projectId then
    { st with error := some "Select a project or create a new one", loading := false }
  else
    match outcome with
    | .success d =>
        { project := some (applyProjectDefaults d), error := none, loading := false }
    | .httpError status statusText =>
        { project := none
          error := some (if status == 404 then "Project not found"
                         else "Error: " ++ toString status ++ " - " ++ statusText)
          loading := false }
    | .networkError =>
        { project := none
          error := some "Failed to load project information"
          loading := false }

/-- What the component renders, abstracted to the three top-level branches
of its JSX. -/
inductive Rendered where
  | loadingView
  | errorView (text : String)
  | projectView (p : ResponseData)
deriving DecidableEq, Repr

/-- The render function of `ProjectInfo`: the loading card, the error card
showing `error || "Project not found"` when `error || !project`, or the
project card. -/
def renderProjectInfo (st : ProjectInfoState) : Rendered :=
  if st.loading then .loadingView
  else if !(strFalsy st.error) || st.project.isNone then
    .errorView (if strFalsy st.error then "Project not found" else st.error.getD "")
  else
    .projectView (st.project.getD ⟨none, none, []⟩)

/-! ## HTTP requests issued by the components -/

/-- An HTTP request as both components build one: method, URL and the
`Authorization` header value. -/
structure HttpRequest where
  method : String
  url : String
  authHeader : String
deriving DecidableEq, Repr

/-- Modelled from the spec: the API client utility
(`src/apps/client/src/utils/api`, absent from the sources) "builds request
URLs"; it maps a relative path to the backend URL for that path, here the
backend base followed by the path. -/
def getApiEndpoint (base path : String) : String := base ++ path

/-- The requests `fetchProjectInfo` issues: none when `!projectId`
short-circuits, otherwise the single authorized GET of
`api/projects/:id`. -/
def fetchProjectInfoRequests (base : String) (projectId : Option String)
    (token : String) : List HttpRequest :=
  if strFalsy projectId then []
  else [{ method := "GET"
          url := getApiEndpoint base ("api/projects/" ++ projectId.getD "")
          authHeader := "Bearer " ++ token }]

/-! ## SprintFormModal component (`handleSubmit`) -/

/-- Form-related component state of `SprintFormModal`: the `useState`
hooks `handleSubmit` reads or writes, plus whether the modal is open
(`onClose` closes it). -/
structure SprintForm where
  name : String
  goal : String
  startDate : String
  endDate : String
  selectedProjectId : String
  isLoading : Bool
  error : String
  isOpen : Bool
deriving DecidableEq, Repr

/-- The JSON body `handleSubmit` POSTs to `/api/sprints/create`:
`{ name, goal, startDate: startDate || null, endDate: endDate || null,
   projectId: selectedProjectId }`. -/
structure SprintRequestBody where
  name : String
  goal : String
  startDate : Option String
  endDate : Option String
  projectId : String
deriving DecidableEq, Repr

/-- Outcome of the awaited `axios.post`: success, or a failure whose
`response?.data?.error` field is `serverError` (`none` when any link of
the optional chain is absent). -/
inductive PostOutcome where
  | ok
  | err (serverError : Option String)
deriving DecidableEq, Repr

/-- Behaviour of `handleSubmit` of `SprintFormModal` as a state transformer, returning
the new component state and the list of request bodies POSTed during the
submission (empty when a validation guard returns early). -/
def handleSubmit (st : SprintForm) (outcome : PostOutcome) :
    SprintForm × List SprintRequestBody :=
  if st.selectedProjectId == "" then
    ({ st with error := "Please select a project" }, [])
  else if st.name == "" then
    ({ st with error := "Sprint name is required" }, [])
  else
    let body : SprintRequestBody :=
      { name := st.name
        goal := st.goal
        startDate := if st.startDate == "" then none else some st.startDate
        endDate := if st.endDate == "" then none else some st.endDate
        projectId := st.selectedProjectId }
    match outcome with
    | .ok =>
        ({ st with isLoading := false, error := "", isOpen := false }, [body])
    | .err serverError =>
        ({ st with
            isLoading := false
            error := if strFalsy serverError then "Failed to create sprint"
                     else serverError.getD "" }, [body])

/-- The requests the modal's project-list effect issues when it opens:
the authorized GET of `/api/projects/workspace/:name`, guarded by
`isOpen && workspaceName`. -/
def fetchProjectsRequests (base : String) (isOpen : Bool)
    (workspaceName token : String) : List HttpRequest :=
  if isOpen && workspaceName != "" then
    [{ method := "GET"
       url := getApiEndpoint base ("/api/projects/workspace/" ++ workspaceName)
       authHeader := "Bearer " ++ token }]
  else []

/-- The requests a submission issues: one authorized POST of
`/api/sprints/create` per body `handleSubmit` sends. -/
def sprintCreateRequests (base token : String) (st : SprintForm)
    (outcome : PostOutcome) : List HttpRequest :=
  (handleSubmit st outcome).2.map fun _ =>
    { method := "POST"
      url := getApiEndpoint base "/api/sprints/create"
      authHeader := "Bearer " ++ token }

/-! ## Relational schema (Prisma models) -/

/-- The schema's `enum UserRole`. -/
inductive UserRole where
  | ADMIN | MANAGER | MEMBER | GUEST
deriving DecidableEq, Repr

/-- The schema's `enum ProjectStatus`. -/
inductive ProjectStatus where
  | PLANNING | ACTIVE | COMPLETED | ARCHIVED
deriving DecidableEq, Repr

/-- The schema's `enum SprintStatus`. -/
inductive SprintStatus where
  | PLANNING | ACTIVE | COMPLETED | CANCELLED
deriving DecidableEq, Repr

/-- The schema's `enum MilestoneStatus`. -/
inductive MilestoneStatus where
  | COMPLETED | IN_PROGRESS | UPCOMING | AT_RISK | BLOCKED
deriving DecidableEq, Repr

/-- A row of `model User` (scalar columns). -/
structure UserRow where
  id : String
  email : Option String
  name : Option String
  role : UserRole
deriving DecidableEq, Repr

/-- A row of `model Workspace` (scalar columns). -/
structure WorkspaceRow where
  id : String
  name : String
deriving DecidableEq, Repr

/-- A row of `model WorkspaceMember`. -/
structure WorkspaceMemberRow where
  id : String
  workspaceId : String
  userId : String
  role : UserRole
deriving DecidableEq, Repr

/-- A row of `model Project`. -/
structure ProjectRow where
  id : String
  name : String
  description : Option String
  key : String
  status : ProjectStatus
  progress : Int
  workspaceId : String
deriving DecidableEq, Repr

/-- A row of `model Task` (scalar and foreign-key columns). -/
structure TaskRow where
  id : String
  title : String
  projectId : String
  sprintId : Option String
  assigneeId : Option String
  creatorId : String
  parentId : Option String
deriving DecidableEq, Repr

/-- A row of `model TaskTag`. -/
structure TaskTagRow where
  id : String
  name : String
  color : Option String
  taskId : String
deriving DecidableEq, Repr

/-- A row of `model Sprint`. -/
structure SprintRow where
  id : String
  name : String
  goal : Option String
  status : SprintStatus
  progress : Int
  projectId : String
  ownerId : String
deriving DecidableEq, Repr

/-- A row of `model Milestone`. -/
structure MilestoneRow where
  id : String
  title : String
  status : MilestoneStatus
  progress : Int
  projectId : String
  ownerId : String
deriving DecidableEq, Repr

/-- A row of `model MilestoneDependency`. -/
structure MilestoneDependencyRow where
  id : String
  milestoneId : String
  dependsOnId : String
deriving DecidableEq, Repr

/-- A database state over the schema's project-management tables. -/
structure DBState where
  users : List UserRow
  workspaces : List WorkspaceRow
  workspaceMembers : List WorkspaceMemberRow
  projects : List ProjectRow
  tasks : List TaskRow
  taskTags : List TaskTagRow
  sprints : List SprintRow
  milestones : List MilestoneRow
  milestoneDependencies : List MilestoneDependencyRow
deriving Repr

/-- The rows of a table take pairwise distinct values of a key. -/
def uniqueKeys {α β : Type} (rows : List α) (key : α → β) : Prop :=
  rows.Pairwise fun a b => key a ≠ key b

instance {α β : Type} [DecidableEq β] (rows : List α) (key : α → β) :
    Decidable (uniqueKeys rows key) :=
  inferInstanceAs (Decidable (List.Pairwise _ _))

/-- A state the schema admits: the `@id`, `@unique` and `@@unique`
constraints of every modelled table hold, and every foreign-key column
references an existing row. -/
def validState (s : DBState) : Prop :=
  uniqueKeys s.users (·.id) ∧
  uniqueKeys (s.users.filterMap (·.email)) id ∧
  uniqueKeys s.workspaces (·.id) ∧
  uniqueKeys s.workspaces (·.name) ∧
  uniqueKeys s.workspaceMembers (·.id) ∧
  uniqueKeys s.workspaceMembers (fun r => (r.workspaceId, r.userId)) ∧
  uniqueKeys s.projects (·.id) ∧
  uniqueKeys s.tasks (·.id) ∧
  uniqueKeys s.taskTags (·.id) ∧
  uniqueKeys s.taskTags (fun r => (r.taskId, r.name)) ∧
  uniqueKeys s.sprints (·.id) ∧
  uniqueKeys s.milestones (·.id) ∧
  uniqueKeys s.milestoneDependencies (·.id) ∧
  uniqueKeys s.milestoneDependencies (fun r => (r.milestoneId, r.dependsOnId)) ∧
  (∀ r ∈ s.workspaceMembers,
    (∃ w ∈ s.workspaces, w.id = r.workspaceId) ∧ (∃ u ∈ s.users, u.id = r.userId)) ∧
  (∀ p ∈ s.projects, ∃ w ∈ s.workspaces, w.id = p.workspaceId) ∧
  (∀ t ∈ s.tasks,
    (∃ p ∈ s.projects, p.id = t.projectId) ∧
    (∀ sid, t.sprintId = some sid → ∃ sp ∈ s.sprints, sp.id = sid) ∧
    (∀ uid, t.assigneeId = some uid → ∃ u ∈ s.users, u.id = uid) ∧
    (∃ u ∈ s.users, u.id = t.creatorId)) ∧
  (∀ g ∈ s.taskTags, ∃ t ∈ s.tasks, t.id = g.taskId) ∧
  (∀ sp ∈ s.sprints,
    (∃ p ∈ s.projects, p.id = sp.projectId) ∧ (∃ u ∈ s.users, u.id = sp.ownerId)) ∧
  (∀ m ∈ s.milestones,
    (∃ p ∈ s.projects, p.id = m.projectId) ∧ (∃ u ∈ s.users, u.id = m.ownerId)) ∧
  (∀ d ∈ s.milestoneDependencies,
    (∃ m ∈ s.milestones, m.id = d.milestoneId) ∧
    (∃ m ∈ s.milestones, m.id = d.dependsOnId))

instance (s : DBState) : Decidable (validState s) := by
  unfold validState
  infer_instance

/-- The dependency edge relation of `MilestoneDependency` rows:
`a` depends on `b`. -/
def depEdge (s : DBState) (a b : String) : Prop :=
  ∃ d ∈ s.milestoneDependencies, d.milestoneId = a ∧ d.dependsOnId = b

instance (s : DBState) (a b : String) : Decidable (depEdge s a b) :=
  inferInstanceAs (Decidable (∃ _ ∈ _, _))

/-! ## Cascade deletes

The `onDelete: Cascade` annotations on `Project.workspace`,
`Task.project`, `Sprint.project`, `Milestone.project`, `TaskTag.task` and
`MilestoneDependency.milestone`/`.dependsOn` make the database delete a
child row whenever the parent row it references is deleted. -/

/-- Delete a project row and cascade: its tasks, sprints and milestones
die, and with them their tags and dependency edges. -/
def deleteProjectCascade (pid : String) (s : DBState) : DBState :=
  let taskDies : TaskRow → Bool := fun t => t.projectId == pid
  let milestoneDies : MilestoneRow → Bool := fun m => m.projectId == pid
  { s with
    projects := s.projects.filter fun p => p.id != pid
    tasks := s.tasks.filter fun t => !taskDies t
    sprints := s.sprints.filter fun sp => sp.projectId != pid
    milestones := s.milestones.filter fun m => !milestoneDies m
    taskTags := s.taskTags.filter fun g =>
      !(s.tasks.any fun t => taskDies t && t.id == g.taskId)
    milestoneDependencies := s.milestoneDependencies.filter fun d =>
      !(s.milestones.any fun m =>
        milestoneDies m && (m.id == d.milestoneId || m.id == d.dependsOnId)) }

/-- Delete a workspace row and cascade: its memberships and projects die,
and with each project its tasks, sprints, milestones, tags and dependency
edges. -/
def deleteWorkspaceCascade (wid : String) (s : DBState) : DBState :=
  let projectDies : ProjectRow → Bool := fun p => p.workspaceId == wid
  let taskDies : TaskRow → Bool := fun t =>
    s.projects.any fun p => projectDies p && p.id == t.projectId
  let milestoneDies : MilestoneRow → Bool := fun m =>
    s.projects.any fun p => projectDies p && p.id == m.projectId
  { s with
    workspaces := s.workspaces.filter fun w => w.id != wid
    workspaceMembers := s.workspaceMembers.filter fun r => r.workspaceId != wid
    projects := s.projects.filter fun p => !projectDies p
    tasks := s.tasks.filter fun t => !taskDies t
    sprints := s.sprints.filter fun sp =>
      !(s.projects.any fun p => projectDies p && p.id == sp.projectId)
    milestones := s.milestones.filter fun m => !milestoneDies m
    taskTags := s.taskTags.filter fun g =>
      !(s.tasks.any fun t => taskDies t && t.id == g.taskId)
    milestoneDependencies := s.milestoneDependencies.filter fun d =>
      !(s.milestones.any fun m =>
        milestoneDies m && (m.id == d.milestoneId || m.id == d.dependsOnId)) }

/-! ## A concrete schema-valid database state used by witnesses -/

/-- A small concrete database state: one workspace with two members, a
project `p1` with `progress = 150`, two milestones of `p1` whose
dependency edges form the directed cycle `m1 -> m2 -> m1`, and a second
project `p2` with its own task. -/
def sampleState : DBState where
  users := [⟨"u1", some "a@x", some "A", .ADMIN⟩, ⟨"u2", none, none, .MEMBER⟩]
  workspaces := [⟨"w1", "Alpha"⟩, ⟨"w2", "Beta"⟩]
  workspaceMembers := [⟨"wm1", "w1", "u1", .ADMIN⟩, ⟨"wm2", "w1", "u2", .MEMBER⟩]
  projects := [⟨"p1", "Pix", none, "PIX", .ACTIVE, 150, "w1"⟩,
               ⟨"p2", "Bay", some "d", "BAY", .PLANNING, 20, "w2"⟩]
  tasks := [⟨"t1", "Task one", "p1", some "s1", some "u2", "u1", none⟩,
            ⟨"t2", "Task two", "p2", none, none, "u1", none⟩]
  taskTags := [⟨"g1", "ui", some "red", "t1"⟩, ⟨"g2", "api", none, "t1"⟩]
  sprints := [⟨"s1", "Sprint 1", none, .ACTIVE, 0, "p1", "u1"⟩]
  milestones := [⟨"m1", "M1", .UPCOMING, 0, "p1", "u1"⟩,
                 ⟨"m2", "M2", .UPCOMING, -5, "p1", "u2"⟩]
  milestoneDependencies := [⟨"d1", "m1", "m2"⟩, ⟨"d2", "m2", "m1"⟩]

/-! ## Claims about `ProjectInfo` -/

/-- C1: for every successful response, the project state rendered by
`ProjectInfo` equals the response body except that a missing-or-falsy
`status` becomes `"active"`, a missing-or-falsy `progress` becomes `0`,
and every other field is passed through unchanged. -/
theorem fetchProjectInfo_success_defaults (d : ResponseData) :
    (applyProjectDefaults d).rest = d.rest ∧
    ((d.status = none ∨ d.status = some "") →
      (applyProjectDefaults d).status = some "active") ∧
    (∀ s, d.status = some s → s ≠ "" →
      (applyProjectDefaults d).status = some s) ∧
    ((d.progress = none ∨ d.progress = some 0) →
      (applyProjectDefaults d).progress = some 0) ∧
    (∀ n, d.progress = some n → n ≠ 0 →
      (applyProjectDefaults d).progress = some n) := by
  refine ⟨rfl, ?_, ?_, ?_, ?_⟩
  · rintro (h | h) <;> simp [applyProjectDefaults, strFalsy, h]
  · intro s hs hne
    simp [applyProjectDefaults, strFalsy, hs, hne]
  · rintro (h | h) <;> simp [applyProjectDefaults, intFalsy, h]
  · intro n hn hne
    simp [applyProjectDefaults, intFalsy, hn, hne]

/-- Witness for C1 at concrete response bodies. -/
theorem fetchProjectInfo_success_defaults_witness :
    (applyProjectDefaults ⟨none, none, [("name", "X")]⟩).rest = [("name", "X")] ∧
    (applyProjectDefaults ⟨none, none, [("name", "X")]⟩).status = some "active" ∧
    (applyProjectDefaults ⟨some "planning", some 42, []⟩).status = some "planning" ∧
    (applyProjectDefaults ⟨none, none, [("name", "X")]⟩).progress = some 0 ∧
    (applyProjectDefaults ⟨some "planning", some 42, []⟩).progress = some 42 :=
  ⟨(fetchProjectInfo_success_defaults _).1,
   (fetchProjectInfo_success_defaults _).2.1 (Or.inl rfl),
   (fetchProjectInfo_success_defaults _).2.2.1 "planning" rfl (by decide),
   (fetchProjectInfo_success_defaults _).2.2.2.1 (Or.inl rfl),
   (fetchProjectInfo_success_defaults _).2.2.2.2 42 rfl (by decide)⟩

/-- C2: a fetch failing with HTTP status 404 sets the error to exactly
"Project not found", clears the stored project to `none`, and renders
that error text. -/
theorem fetchProjectInfo_404 (projectId : Option String) (statusText : String)
    (st : ProjectInfoState) (h : strFalsy projectId = false) :
    (fetchProjectInfo projectId (.httpError 404 statusText) st).error
      = some "Project not found" ∧
    (fetchProjectInfo projectId (.httpError 404 statusText) st).project = none ∧
    renderProjectInfo (fetchProjectInfo projectId (.httpError 404 statusText) st)
      = .errorView "Project not found" := by
  unfold fetchProjectInfo
  rw [h]
  simp [renderProjectInfo, strFalsy]

/-- Witness for C2 at a concrete project id and initial state. -/
theorem fetchProjectInfo_404_witness :
    strFalsy (some "p1") = false ∧
    ((fetchProjectInfo (some "p1") (.httpError 404 "Not Found")
        ⟨none, none, true⟩).error = some "Project not found" ∧
     (fetchProjectInfo (some "p1") (.httpError 404 "Not Found")
        ⟨none, none, true⟩).project = none ∧
     renderProjectInfo (fetchProjectInfo (some "p1") (.httpError 404 "Not Found")
        ⟨none, none, true⟩) = .errorView "Project not found") :=
  ⟨by decide, fetchProjectInfo_404 (some "p1") "Not Found" ⟨none, none, true⟩ (by decide)⟩

/-- C9: a fetch invoked with a null, undefined or empty `projectId`
issues no HTTP request, sets the error to exactly
"Select a project or create a new one", and sets loading to false,
leaving the rest of the state unchanged. -/
theorem fetchProjectInfo_no_projectId (projectId : Option String)
    (outcome : FetchOutcome) (st : ProjectInfoState) (base token : String)
    (h : strFalsy projectId = true) :
    fetchProjectInfo projectId outcome st
      = { st with error := some "Select a project or create a new one",
                  loading := false } ∧
    fetchProjectInfoRequests base projectId token = [] := by
  simp [fetchProjectInfo, fetchProjectInfoRequests, h]

/-- Witness for C9 at `projectId = none` and `projectId = some ""`. -/
theorem fetchProjectInfo_no_projectId_witness :
    strFalsy (none : Option String) = true ∧ strFalsy (some "") = true ∧
    (fetchProjectInfo none .networkError ⟨none, none, true⟩
      = { project := none, error := some "Select a project or create a new one",
          loading := false } ∧
     fetchProjectInfoRequests "B/" none "tok" = []) ∧
    (fetchProjectInfo (some "") .networkError ⟨none, none, true⟩
      = { project := none, error := some "Select a project or create a new one",
          loading := false } ∧
     fetchProjectInfoRequests "B/" (some "") "tok" = []) :=
  ⟨rfl, by decide,
   fetchProjectInfo_no_projectId none .networkError ⟨none, none, true⟩ "B/" "tok" rfl,
   fetchProjectInfo_no_projectId (some "") .networkError ⟨none, none, true⟩ "B/" "tok"
     (by decide)⟩

/-- A formatted error message is never the empty string. -/
theorem errorMsg_ne_empty (a b : String) : ("Error: " ++ a ++ " - " ++ b) ≠ "" := by
  intro hEq
  have hlen := congrArg String.length hEq
  have h7 : "Error: ".length = 7 := rfl
  simp [String.length_append, h7] at hlen

/-- C3 counterexample: a fetch failing with a network error (no HTTP
response attached) shows the generic "Failed to load project information",
which does not begin with "Error:" and so is not a formatted status
message of the form "Error: <status> - <statusText>". -/
theorem fetchProjectInfo_network_error_counterexample :
    (fetchProjectInfo (some "p1") .networkError ⟨none, none, true⟩).error
      = some "Failed to load project information" ∧
    renderProjectInfo (fetchProjectInfo (some "p1") .networkError ⟨none, none, true⟩)
      = .errorView "Failed to load project information" ∧
    "Failed to load project information".data.take 6 ≠ "Error:".data := by
  decide

/-- C3 amended: a fetch failing with a non-404 error status carrying an
HTTP response shows the formatted "Error: <status> - <statusText>"; a
fetch failing without an HTTP response (network error) shows the generic
"Failed to load project information". -/
theorem fetchProjectInfo_error_branches (projectId : Option String)
    (st : ProjectInfoState) (status : Nat) (statusText : String)
    (h : strFalsy projectId = false) (h404 : status ≠ 404) :
    (fetchProjectInfo projectId (.httpError status statusText) st).error
      = some ("Error: " ++ toString status ++ " - " ++ statusText) ∧
    renderProjectInfo (fetchProjectInfo projectId (.httpError status statusText) st)
      = .errorView ("Error: " ++ toString status ++ " - " ++ statusText) ∧
    (fetchProjectInfo projectId .networkError st).error
      = some "Failed to load project information" ∧
    renderProjectInfo (fetchProjectInfo projectId .networkError st)
      = .errorView "Failed to load project information" := by
  unfold fetchProjectInfo
  rw [h]
  have hb : (status == 404) = false := by simp [h404]
  have hne : (("Error: " ++ toString status ++ " - " ++ statusText) == "") = false :=
    beq_eq_false_iff_ne.mpr (errorMsg_ne_empty _ _)
  simp [renderProjectInfo, strFalsy, hb, hne]

/-- Witness for the amended C3 at status 500. -/
theorem fetchProjectInfo_error_branches_witness :
    strFalsy (some "p1") = false ∧ (500 : Nat) ≠ 404 ∧
    ((fetchProjectInfo (some "p1") (.httpError 500 "Internal Server Error")
        ⟨none, none, true⟩).error
      = some ("Error: " ++ toString 500 ++ " - " ++ "Internal Server Error") ∧
     renderProjectInfo (fetchProjectInfo (some "p1")
        (.httpError 500 "Internal Server Error") ⟨none, none, true⟩)
      = .errorView ("Error: " ++ toString 500 ++ " - " ++ "Internal Server Error") ∧
     (fetchProjectInfo (some "p1") .networkError ⟨none, none, true⟩).error
      = some "Failed to load project information" ∧
     renderProjectInfo (fetchProjectInfo (some "p1") .networkError ⟨none, none, true⟩)
      = .errorView "Failed to load project information") :=
  ⟨by decide, by decide,
   fetchProjectInfo_error_branches (some "p1") ⟨none, none, true⟩ 500
     "Internal Server Error" (by decide) (by decide)⟩

/-! ## Claims about `SprintFormModal` -/

/-- C4: a submission whose POST fails surfaces the server-supplied
`response.data.error` when present (and truthy), otherwise exactly
"Failed to create sprint"; the modal stays open and exactly one POST is
attempted (no retry). -/
theorem handleSubmit_post_failure (st : SprintForm) (serverError : Option String)
    (hp : st.selectedProjectId ≠ "") (hn : st.name ≠ "") :
    (strFalsy serverError = true →
      (handleSubmit st (.err serverError)).1.error = "Failed to create sprint") ∧
    (∀ m, serverError = some m → m ≠ "" →
      (handleSubmit st (.err serverError)).1.error = m) ∧
    (handleSubmit st (.err serverError)).1.isOpen = st.isOpen ∧
    (handleSubmit st (.err serverError)).2.length = 1 := by
  have hp2 : (st.selectedProjectId == "") = false := beq_eq_false_iff_ne.mpr hp
  have hn2 : (st.name == "") = false := beq_eq_false_iff_ne.mpr hn
  unfold handleSubmit
  rw [hp2, hn2]
  refine ⟨fun hsf => by simp [hsf], fun m hm hne => ?_, by simp, by simp⟩
  subst hm
  have hsf : strFalsy (some m) = false := beq_eq_false_iff_ne.mpr hne
  simp [hsf]

/-- Witness for C4 at a concrete filled form, with and without a
server-supplied error message. -/
theorem handleSubmit_post_failure_witness :
    (handleSubmit ⟨"S", "", "", "", "p1", false, "", true⟩ (.err none)).1.error
      = "Failed to create sprint" ∧
    (handleSubmit ⟨"S", "", "", "", "p1", false, "", true⟩ (.err (some "boom"))).1.error
      = "boom" ∧
    (handleSubmit ⟨"S", "", "", "", "p1", false, "", true⟩ (.err (some "boom"))).1.isOpen
      = true ∧
    (handleSubmit ⟨"S", "", "", "", "p1", false, "", true⟩ (.err (some "boom"))).2.length
      = 1 :=
  ⟨(handleSubmit_post_failure _ none (by decide) (by decide)).1 rfl,
   (handleSubmit_post_failure _ (some "boom") (by decide) (by decide)).2.1 "boom" rfl
     (by decide),
   (handleSubmit_post_failure _ (some "boom") (by decide) (by decide)).2.2.1,
   (handleSubmit_post_failure _ (some "boom") (by decide) (by decide)).2.2.2⟩

/-- C10: a submission with no selected project sets the error to
"Please select a project" (checked first) and issues no POST; one with a
project but an empty name sets "Sprint name is required" and issues no
POST; in both cases all other form state is unchanged. When both fields
are present, empty `startDate` and `endDate` are sent as `null` in the
request body. -/
theorem handleSubmit_validation (st : SprintForm) (outcome : PostOutcome) :
    (st.selectedProjectId = "" →
      handleSubmit st outcome = ({ st with error := "Please select a project" }, [])) ∧
    (st.selectedProjectId ≠ "" → st.name = "" →
      handleSubmit st outcome = ({ st with error := "Sprint name is required" }, [])) ∧
    (st.selectedProjectId ≠ "" → st.name ≠ "" → st.startDate = "" → st.endDate = "" →
      (handleSubmit st outcome).2 =
        [{ name := st.name, goal := st.goal, startDate := none, endDate := none,
           projectId := st.selectedProjectId }]) := by
  refine ⟨fun h1 => ?_, fun h1 h2 => ?_, fun h1 h2 h3 h4 => ?_⟩
  · have h1b : (st.selectedProjectId == "") = true := beq_iff_eq.mpr h1
    unfold handleSubmit
    rw [h1b]
    simp
  · have h1b : (st.selectedProjectId == "") = false := beq_eq_false_iff_ne.mpr h1
    have h2b : (st.name == "") = true := beq_iff_eq.mpr h2
    unfold handleSubmit
    rw [h1b, h2b]
    simp
  · have h1b : (st.selectedProjectId == "") = false := beq_eq_false_iff_ne.mpr h1
    have h3b : (st.startDate == "") = true := beq_iff_eq.mpr h3
    have h4b : (st.endDate == "") = true := beq_iff_eq.mpr h4
    have h2b : (st.name == "") = false := beq_eq_false_iff_ne.mpr h2
    unfold handleSubmit
    rw [h1b, h2b, h3b, h4b]
    cases outcome <;> simp

/-- Witness for C10 at concrete forms hitting each branch. -/
theorem handleSubmit_validation_witness :
    handleSubmit ⟨"S", "g", "", "", "", false, "", true⟩ .ok
      = ({ name := "S", goal := "g", startDate := "", endDate := "",
           selectedProjectId := "", isLoading := false,
           error := "Please select a project", isOpen := true }, []) ∧
    handleSubmit ⟨"", "g", "", "", "p1", false, "", true⟩ .ok
      = ({ name := "", goal := "g", startDate := "", endDate := "",
           selectedProjectId := "p1", isLoading := false,
           error := "Sprint name is required", isOpen := true }, []) ∧
    (handleSubmit ⟨"S", "g", "", "", "p1", false, "", true⟩ .ok).2
      = [{ name := "S", goal := "g", startDate := none, endDate := none,
           projectId := "p1" }] :=
  ⟨(handleSubmit_validation _ .ok).1 rfl,
   (handleSubmit_validation _ .ok).2.1 (by decide) rfl,
   (handleSubmit_validation _ .ok).2.2 (by decide) (by decide) rfl rfl⟩

/-! ## Claim about the requests of both components -/

/-- C8: every HTTP request issued by `ProjectInfo` and `SprintFormModal`
carries an `Authorization` header of the form "Bearer <token>" and
targets `GET api/projects/:id`, `GET /api/projects/workspace/:name` or
`POST /api/sprints/create`, its URL built by the API client utility. -/
theorem requests_authorized (base token : String) (projectId : Option String)
    (isOpen : Bool) (workspaceName : String) (st : SprintForm)
    (outcome : PostOutcome) (r : HttpRequest)
    (hr : r ∈ fetchProjectInfoRequests base projectId token ++
          fetchProjectsRequests base isOpen workspaceName token ++
          sprintCreateRequests base token st outcome) :
    r.authHeader = "Bearer " ++ token ∧
    ((r.method = "GET" ∧
        r.url = getApiEndpoint base ("api/projects/" ++ projectId.getD "")) ∨
     (r.method = "GET" ∧
        r.url = getApiEndpoint base ("/api/projects/workspace/" ++ workspaceName)) ∨
     (r.method = "POST" ∧ r.url = getApiEndpoint base "/api/sprints/create")) := by
  rcases List.mem_append.1 hr with h | h
  · rcases List.mem_append.1 h with h1 | h2
    · unfold fetchProjectInfoRequests at h1
      split at h1
      · simp at h1
      · simp at h1
        subst h1
        exact ⟨rfl, Or.inl ⟨rfl, rfl⟩⟩
    · unfold fetchProjectsRequests at h2
      split at h2
      · simp at h2
        subst h2
        exact ⟨rfl, Or.inr (Or.inl ⟨rfl, rfl⟩)⟩
      · simp at h2
  · unfold sprintCreateRequests at h
    rcases List.mem_map.1 h with ⟨b, _, hr2⟩
    subst hr2
    exact ⟨rfl, Or.inr (Or.inr ⟨rfl, rfl⟩)⟩

/-- Witness for C8 at a concrete request of each component. -/
theorem requests_authorized_witness :
    (({ method := "GET", url := getApiEndpoint "B/" ("api/projects/" ++ "p7"),
        authHeader := "Bearer " ++ "tok" } : HttpRequest) ∈
      fetchProjectInfoRequests "B/" (some "p7") "tok" ++
      fetchProjectsRequests "B/" true "w1" "tok" ++
      sprintCreateRequests "B/" "tok" ⟨"S", "", "", "", "p1", false, "", true⟩ .ok) ∧
    (({ method := "GET", url := getApiEndpoint "B/" ("api/projects/" ++ "p7"),
        authHeader := "Bearer " ++ "tok" } : HttpRequest).authHeader
        = "Bearer " ++ "tok" ∧
     ((({ method := "GET", url := getApiEndpoint "B/" ("api/projects/" ++ "p7"),
          authHeader := "Bearer " ++ "tok" } : HttpRequest).method = "GET" ∧
       ({ method := "GET", url := getApiEndpoint "B/" ("api/projects/" ++ "p7"),
          authHeader := "Bearer " ++ "tok" } : HttpRequest).url
         = getApiEndpoint "B/" ("api/projects/" ++ (some "p7" : Option String).getD "")) ∨
      (({ method := "GET", url := getApiEndpoint "B/" ("api/projects/" ++ "p7"),
          authHeader := "Bearer " ++ "tok" } : HttpRequest).method = "GET" ∧
       ({ method := "GET", url := getApiEndpoint "B/" ("api/projects/" ++ "p7"),
          authHeader := "Bearer " ++ "tok" } : HttpRequest).url
         = getApiEndpoint "B/" ("/api/projects/workspace/" ++ "w1")) ∨
      (({ method := "GET", url := getApiEndpoint "B/" ("api/projects/" ++ "p7"),
          authHeader := "Bearer " ++ "tok" } : HttpRequest).method = "POST" ∧
       ({ method := "GET", url := getApiEndpoint "B/" ("api/projects/" ++ "p7"),
          authHeader := "Bearer " ++ "tok" } : HttpRequest).url
         = getApiEndpoint "B/" "/api/sprints/create"))) :=
  ⟨by decide,
   requests_authorized "B/" "tok" (some "p7") true "w1"
     ⟨"S", "", "", "", "p1", false, "", true⟩ .ok _ (by decide)⟩

/-! ## Claims about the schema -/

/-- From `uniqueKeys`, the rows at any two distinct positions take
distinct key values. -/
theorem uniqueKeys_getElem {α β : Type} {rows : List α} {key : α → β}
    (h : uniqueKeys rows key) (i j : Nat) (hi : i < rows.length)
    (hj : j < rows.length) (hij : i ≠ j) : key rows[i] ≠ key rows[j] := by
  rcases Nat.lt_or_ge i j with hlt | hge
  · exact List.pairwise_iff_getElem.1 h i j hi hj hlt
  · have hlt : j < i := Nat.lt_of_le_of_ne hge (Ne.symm hij)
    exact (List.pairwise_iff_getElem.1 h j i hj hi hlt).symm

/-- C5: in every schema-admitted state, no two rows of `WorkspaceMember`
agree on both `workspaceId` and `userId`, no two rows of `TaskTag` agree
on both `taskId` and `name`, and no two rows of `MilestoneDependency`
agree on both `milestoneId` and `dependsOnId`. -/
theorem schema_unique_pairs (s : DBState) (h : validState s) :
    (∀ i j (hi : i < s.workspaceMembers.length)
        (hj : j < s.workspaceMembers.length), i ≠ j →
      ¬((s.workspaceMembers[i]).workspaceId = (s.workspaceMembers[j]).workspaceId ∧
        (s.workspaceMembers[i]).userId = (s.workspaceMembers[j]).userId)) ∧
    (∀ i j (hi : i < s.taskTags.length) (hj : j < s.taskTags.length), i ≠ j →
      ¬((s.taskTags[i]).taskId = (s.taskTags[j]).taskId ∧
        (s.taskTags[i]).name = (s.taskTags[j]).name)) ∧
    (∀ i j (hi : i < s.milestoneDependencies.length)
        (hj : j < s.milestoneDependencies.length), i ≠ j →
      ¬((s.milestoneDependencies[i]).milestoneId
          = (s.milestoneDependencies[j]).milestoneId ∧
        (s.milestoneDependencies[i]).dependsOnId
          = (s.milestoneDependencies[j]).dependsOnId)) := by
  obtain ⟨h1, h2, h3, h4, h5, h6, h7, h8, h9, h10, h11, h12, h13, h14, hrest⟩ := h
  refine ⟨fun i j hi hj hij hagree => ?_, fun i j hi hj hij hagree => ?_,
          fun i j hi hj hij hagree => ?_⟩
  · exact uniqueKeys_getElem h6 i j hi hj hij
      (by rw [Prod.mk.injEq]; exact hagree)
  · exact uniqueKeys_getElem h10 i j hi hj hij
      (by rw [Prod.mk.injEq]; exact hagree)
  · exact uniqueKeys_getElem h14 i j hi hj hij
      (by rw [Prod.mk.injEq]; exact hagree)

/-- Witness for C5: the two membership rows of `sampleState` differ on
the pair. -/
theorem schema_unique_pairs_witness :
    validState sampleState ∧
    ¬(("w1" : String) = "w1" ∧ ("u1" : String) = "u2") :=
  ⟨by decide,
   (schema_unique_pairs sampleState (by decide)).1 0 1 (by decide) (by decide)
     (by decide)⟩

/-- C6: deleting a workspace deletes every project belonging to it, and
deleting a project deletes every task, sprint and milestone belonging to
it; in a schema-admitted state every surviving task, sprint and milestone
still references a surviving project (no orphaned child rows). -/
theorem cascade_delete_no_orphans (wid pid : String) (s : DBState)
    (h : validState s) :
    (∀ p ∈ (deleteWorkspaceCascade wid s).projects, p.workspaceId ≠ wid) ∧
    (∀ t ∈ (deleteWorkspaceCascade wid s).tasks,
      ∃ p ∈ (deleteWorkspaceCascade wid s).projects, p.id = t.projectId) ∧
    (∀ sp ∈ (deleteWorkspaceCascade wid s).sprints,
      ∃ p ∈ (deleteWorkspaceCascade wid s).projects, p.id = sp.projectId) ∧
    (∀ m ∈ (deleteWorkspaceCascade wid s).milestones,
      ∃ p ∈ (deleteWorkspaceCascade wid s).projects, p.id = m.projectId) ∧
    (∀ t ∈ (deleteProjectCascade pid s).tasks, t.projectId ≠ pid) ∧
    (∀ sp ∈ (deleteProjectCascade pid s).sprints, sp.projectId ≠ pid) ∧
    (∀ m ∈ (deleteProjectCascade pid s).milestones, m.projectId ≠ pid) ∧
    (∀ t ∈ (deleteProjectCascade pid s).tasks,
      ∃ p ∈ (deleteProjectCascade pid s).projects, p.id = t.projectId) ∧
    (∀ sp ∈ (deleteProjectCascade pid s).sprints,
      ∃ p ∈ (deleteProjectCascade pid s).projects, p.id = sp.projectId) ∧
    (∀ m ∈ (deleteProjectCascade pid s).milestones,
      ∃ p ∈ (deleteProjectCascade pid s).projects, p.id = m.projectId) := by
  obtain ⟨h1, h2, h3, h4, h5, h6, h7, h8, h9, h10, h11, h12, h13, h14,
          h15, h16, h17, h18, h19, h20, h21⟩ := h
  refine ⟨?_, ?_, ?_, ?_, ?_, ?_, ?_, ?_, ?_, ?_⟩
  · intro p hp
    simp [deleteWorkspaceCascade, List.mem_filter] at hp
    exact hp.2
  · intro t ht
    simp [deleteWorkspaceCascade, List.mem_filter] at ht
    obtain ⟨p, hpmem, hpid⟩ := (h17 t ht.1).1
    refine ⟨p, ?_, hpid⟩
    simp [deleteWorkspaceCascade, List.mem_filter]
    exact ⟨hpmem, fun hw => (ht.2 p hpmem hw) hpid⟩
  · intro sp hsp
    simp [deleteWorkspaceCascade, List.mem_filter] at hsp
    obtain ⟨p, hpmem, hpid⟩ := (h19 sp hsp.1).1
    refine ⟨p, ?_, hpid⟩
    simp [deleteWorkspaceCascade, List.mem_filter]
    exact ⟨hpmem, fun hw => (hsp.2 p hpmem hw) hpid⟩
  · intro m hm
    simp [deleteWorkspaceCascade, List.mem_filter] at hm
    obtain ⟨p, hpmem, hpid⟩ := (h20 m hm.1).1
    refine ⟨p, ?_, hpid⟩
    simp [deleteWorkspaceCascade, List.mem_filter]
    exact ⟨hpmem, fun hw => (hm.2 p hpmem hw) hpid⟩
  · intro t ht
    simp [deleteProjectCascade, List.mem_filter] at ht
    exact ht.2
  · intro sp hsp
    simp [deleteProjectCascade, List.mem_filter] at hsp
    exact hsp.2
  · intro m hm
    simp [deleteProjectCascade, List.mem_filter] at hm
    exact hm.2
  · intro t ht
    simp [deleteProjectCascade, List.mem_filter] at ht
    obtain ⟨p, hpmem, hpid⟩ := (h17 t ht.1).1
    refine ⟨p, ?_, hpid⟩
    simp [deleteProjectCascade, List.mem_filter]
    exact ⟨hpmem, by rw [hpid]; exact ht.2⟩
  · intro sp hsp
    simp [deleteProjectCascade, List.mem_filter] at hsp
    obtain ⟨p, hpmem, hpid⟩ := (h19 sp hsp.1).1
    refine ⟨p, ?_, hpid⟩
    simp [deleteProjectCascade, List.mem_filter]
    exact ⟨hpmem, by rw [hpid]; exact hsp.2⟩
  · intro m hm
    simp [deleteProjectCascade, List.mem_filter] at hm
    obtain ⟨p, hpmem, hpid⟩ := (h20 m hm.1).1
    refine ⟨p, ?_, hpid⟩
    simp [deleteProjectCascade, List.mem_filter]
    exact ⟨hpmem, by rw [hpid]; exact hm.2⟩

/-- Witness for C6: in `sampleState`, deleting project `p1` leaves the
task `t2` of project `p2`, which indeed does not belong to `p1`. -/
theorem cascade_delete_no_orphans_witness :
    validState sampleState ∧
    (⟨"t2", "Task two", "p2", none, none, "u1", none⟩ : TaskRow).projectId ≠ "p1" :=
  ⟨by decide,
   (cascade_delete_no_orphans "w1" "p1" sampleState (by decide)).2.2.2.2.1
     ⟨"t2", "Task two", "p2", none, none, "u1", none⟩ (by decide)⟩

/-- C7: the schema admits a state whose milestone-dependency edges form a
directed cycle (`m1 -> m2 -> m1` in `sampleState`) and whose `progress`
values fall outside 0–100 (`p1.progress = 150`, `m2.progress = -5`):
no schema invariant rules these out. -/
theorem schema_admits_cycle_and_unbounded_progress :
    validState sampleState ∧
    (∃ a b, a ≠ b ∧ depEdge sampleState a b ∧ depEdge sampleState b a) ∧
    (∃ p ∈ sampleState.projects, p.progress < 0 ∨ 100 < p.progress) ∧
    (∃ m ∈ sampleState.milestones, m.progress < 0 ∨ 100 < m.progress) := by
  refine ⟨by decide, ⟨"m1", "m2", by decide, by decide, by decide⟩, ?_, ?_⟩
  · exact ⟨⟨"p1", "Pix", none, "PIX", .ACTIVE, 150, "w1"⟩, by decide,
      Or.inr (by decide)⟩
  · exact ⟨⟨"m2", "M2", .UPCOMING, -5, "p1", "u2"⟩, by decide, Or.inl (by decide)⟩
